import Mathlib

/-!
Verification of the request/completion coordination code in
`integration_example.go` (repository mobart).

The Go code couples a backend to a worker through Redis pub/sub:

* `PublishImageGenerationRequest` marshals an `ImageGenerationRequest`
  (three string fields) with `encoding/json` and publishes it on the
  channel `"image_generation_requests"`, returning the freshly generated
  request id;
* `StartCompletionListener` subscribes to `"image_generation_complete"`,
  and for each message unmarshals an `ImageGenerationCompletion`,
  dropping malformed payloads, updating the database on status
  `"completed"` and logging on status `"failed"`;
* `UpdateGeneratedContentWithImage` is the database update stub
  (it always returns `nil` in the repository).

JSON is embedded as an abstract syntax tree (`JValue`); Go's
`encoding/json` marshals a value to the canonical text of this tree and
unmarshal parses the text back to the tree, so serialization claims are
settled at the tree level.  `json.Unmarshal` into a struct is modelled
field by field: keys are matched to the field tags case-insensitively
(Go folds both the incoming key and the tag with the simple Unicode
case fold; against these all-lowercase-ASCII tags that amounts to
folding the key to lowercase, where, besides `A`–`Z`, the letters
`U+017F` and `U+212A` fold to `s` and `k`), keys are processed in
order, a later duplicate key overwrites an earlier one, a JSON `null`
leaves the field untouched, a present key whose value has the wrong
JSON type is an error, a missing key leaves the zero value, and keys
matching no field are ignored.  Go `float64`
is modelled as `Rat` (no claim depends on floating-point rounding).
Side effects (the Redis publish, the log lines, the database call) are
reified as explicit outcome records and event traces.  `uuid.New()` is
modelled as an input parameter of the publisher.
-/

/-- JSON values, the wire format of both channels. -/
inductive JValue where
  | str (s : String)
  | num (q : Rat)
  | bool (b : Bool)
  | null
  | arr (elems : List JValue)
  | obj (fields : List (String × JValue))

/-- `ImageGenerationRequest` from integration_example.go: json tags
`request_id`, `user_id`, `prompt`. -/
structure ImageGenerationRequest where
  requestID : String
  userID : String
  prompt : String
deriving DecidableEq, Repr

/-- `ImageGenerationCompletion` from integration_example.go: json tags
`request_id`, `user_id`, `status`, `s3_key`, `s3_url`,
`generation_time_seconds`, `error`, `timestamp`. -/
structure ImageGenerationCompletion where
  requestID : String
  userID : String
  status : String
  s3Key : String
  s3URL : String
  generationTimeSeconds : Rat
  err : String
  timestamp : String
deriving DecidableEq, Repr

/-- The Go zero value of `ImageGenerationCompletion`, the starting point
of `json.Unmarshal` into a fresh variable. -/
def zeroCompletion : ImageGenerationCompletion :=
  { requestID := "", userID := "", status := "", s3Key := "", s3URL := "",
    generationTimeSeconds := 0, err := "", timestamp := "" }

/-- Go's `encoding/json` key folding, restricted to one character: the
fold orbit of every ASCII letter is upper case and lower case, except
that the orbits of `s` and `k` also hold `U+017F` (long s) and
`U+212A` (Kelvin sign); no other character folds into an ASCII
letter.  Folding the key character to lower case therefore matches the
key against the lowercase-ASCII field tags exactly as Go does. -/
def foldKeyChar (c : Char) : Char :=
  if 0x41 ≤ c.toNat ∧ c.toNat ≤ 0x5A then Char.ofNat (c.toNat + 0x20)
  else if c.toNat = 0x17F then Char.ofNat 0x73
  else if c.toNat = 0x212A then Char.ofNat 0x6B
  else c

/-- A JSON key folded for case-insensitive tag matching, as
`json.Unmarshal` folds incoming keys. -/
def foldKey (k : String) : String :=
  ⟨k.data.map foldKeyChar⟩

/-- `json.Marshal` of an `ImageGenerationRequest`: an object with the
three tagged fields in struct order. -/
def marshalRequest (r : ImageGenerationRequest) : JValue :=
  .obj [("request_id", .str r.requestID),
        ("user_id", .str r.userID),
        ("prompt", .str r.prompt)]

/-- One step of `json.Unmarshal` into `ImageGenerationRequest`: apply a
single JSON object member to the struct, matching the key to the field
tags case-insensitively via `foldKey`.  A string is stored, `null` is a
no-op, any other value for a matched key is a type error (`none`), and
a key matching no field is ignored. -/
def setRequestField (r : ImageGenerationRequest) (k : String) (v : JValue) :
    Option ImageGenerationRequest :=
  if foldKey k = "request_id" then
    match v with
    | .str s => some { r with requestID := s }
    | .null => some r
    | _ => none
  else if foldKey k = "user_id" then
    match v with
    | .str s => some { r with userID := s }
    | .null => some r
    | _ => none
  else if foldKey k = "prompt" then
    match v with
    | .str s => some { r with prompt := s }
    | .null => some r
    | _ => none
  else some r

/-- Process the members of a JSON object in order, as `json.Unmarshal`
does (a later duplicate key overwrites an earlier one). -/
def decodeRequestFields : ImageGenerationRequest → List (String × JValue) →
    Option ImageGenerationRequest
  | r, [] => some r
  | r, (k, v) :: rest =>
    match setRequestField r k v with
    | none => none
    | some r2 => decodeRequestFields r2 rest

/-- `json.Unmarshal` of a payload into `ImageGenerationRequest` (a
top-level JSON `null` is a no-op in Go and leaves the zero value). -/
def unmarshalRequest (j : JValue) : Option ImageGenerationRequest :=
  match j with
  | .obj fields => decodeRequestFields ⟨"", "", ""⟩ fields
  | .null => some ⟨"", "", ""⟩
  | _ => none

/-- Store a JSON value into a Go `string` struct field: a JSON string
is stored, `null` is a no-op, anything else is a type error. -/
def storeStr (set : String → ImageGenerationCompletion)
    (c : ImageGenerationCompletion) : JValue → Option ImageGenerationCompletion
  | .str s => some (set s)
  | .null => some c
  | _ => none

/-- Store a JSON value into a Go `float64` struct field: a JSON number
is stored, `null` is a no-op, anything else is a type error. -/
def storeNum (set : Rat → ImageGenerationCompletion)
    (c : ImageGenerationCompletion) : JValue → Option ImageGenerationCompletion
  | .num q => some (set q)
  | .null => some c
  | _ => none

/-- One step of `json.Unmarshal` into `ImageGenerationCompletion`,
matching the key to the field tags case-insensitively via `foldKey`:
string fields take JSON strings, `generation_time_seconds` (a Go
`float64`) takes a JSON number, `null` is a no-op, any other value for
a matched key is a type error, and a key matching no field is
ignored. -/
def setCompletionField (c : ImageGenerationCompletion) (k : String) (v : JValue) :
    Option ImageGenerationCompletion :=
  if foldKey k = "request_id" then storeStr (fun s => { c with requestID := s }) c v
  else if foldKey k = "user_id" then storeStr (fun s => { c with userID := s }) c v
  else if foldKey k = "status" then storeStr (fun s => { c with status := s }) c v
  else if foldKey k = "s3_key" then storeStr (fun s => { c with s3Key := s }) c v
  else if foldKey k = "s3_url" then storeStr (fun s => { c with s3URL := s }) c v
  else if foldKey k = "generation_time_seconds" then
    storeNum (fun q => { c with generationTimeSeconds := q }) c v
  else if foldKey k = "error" then storeStr (fun s => { c with err := s }) c v
  else if foldKey k = "timestamp" then storeStr (fun s => { c with timestamp := s }) c v
  else some c

/-- Process the members of a JSON object in order for
`ImageGenerationCompletion`. -/
def decodeCompletionFields : ImageGenerationCompletion → List (String × JValue) →
    Option ImageGenerationCompletion
  | c, [] => some c
  | c, (k, v) :: rest =>
    match setCompletionField c k v with
    | none => none
    | some c2 => decodeCompletionFields c2 rest

/-- `json.Unmarshal` of a payload into `ImageGenerationCompletion`, as
performed by `StartCompletionListener` (a top-level JSON `null` is a
no-op in Go and leaves the zero value). -/
def unmarshalCompletion (j : JValue) : Option ImageGenerationCompletion :=
  match j with
  | .obj fields => decodeCompletionFields zeroCompletion fields
  | .null => some zeroCompletion
  | _ => none

/-- The keys that `json.Unmarshal` matches to a field of
`ImageGenerationCompletion`, under Go's case-insensitive folding. -/
def knownCompletionKey (k : String) : Bool :=
  foldKey k = "request_id" || foldKey k = "user_id" || foldKey k = "status" ||
  foldKey k = "s3_key" || foldKey k = "s3_url" ||
  foldKey k = "generation_time_seconds" || foldKey k = "error" ||
  foldKey k = "timestamp"

/-- A JSON object member that makes `json.Unmarshal` into
`ImageGenerationCompletion` fail: a key matched (case-insensitively) to
a field, whose value has the wrong JSON type (not the field type and
not `null`). -/
def badCompletionField : String × JValue → Bool
  | (k, v) =>
    knownCompletionKey k &&
      (match v with
       | .str _ => foldKey k = "generation_time_seconds"
       | .num _ => !(foldKey k = "generation_time_seconds")
       | .null => false
       | _ => true)

/-- Outcome of `PublishImageGenerationRequest`: the channel and payload
handed to `rdb.Publish`, the returned request id, and the returned
error.  `uuid.New().String()` is the `requestID` parameter, and the
result of the Redis publish call is the `publishErr` parameter
(`none` = the bus accepted the message).  `json.Marshal` of a struct of
three strings cannot fail, so no marshal-error branch exists in the
model. -/
structure PublishOutcome where
  channel : String
  payload : JValue
  ret : String
  returnedErr : Option String

/-- `PublishImageGenerationRequest` from integration_example.go: build
the request with the fresh id, marshal it, publish it on
`"image_generation_requests"`; on publish error return `("", err)`,
otherwise return `(requestID, nil)`. -/
def publishImageGenerationRequest (requestID userID prompt : String)
    (publishErr : Option String) : PublishOutcome :=
  let request : ImageGenerationRequest :=
    { requestID := requestID, userID := userID, prompt := prompt }
  let jsonData := marshalRequest request
  match publishErr with
  | some e =>
    { channel := "image_generation_requests", payload := jsonData,
      ret := "", returnedErr := some e }
  | none =>
    { channel := "image_generation_requests", payload := jsonData,
      ret := requestID, returnedErr := none }

/-- `UpdateGeneratedContentWithImage` from integration_example.go: the
database update stub, which always returns `nil`. -/
def updateGeneratedContentWithImage (_requestID _s3Key _s3URL : String) :
    Option String :=
  none

/-- The observable actions of one iteration of the listener loop in
`StartCompletionListener`:

* `parseFailed` — `json.Unmarshal` failed, the error is logged and the
  message dropped (`continue`);
* `received r s` — the "Received completion" log line;
* `dbUpdated r k u` — `UpdateGeneratedContentWithImage(r, k, u)` was
  invoked and returned `nil` (the "Updated database" log line);
* `dbUpdateFailed r k u e` — the same invocation returned error `e`
  (the "Failed to update database" log line);
* `generationFailed r e` — status was `"failed"`, the failure log line. -/
inductive ListenerEvent where
  | parseFailed
  | received (requestID status : String)
  | dbUpdated (requestID s3Key s3URL : String)
  | dbUpdateFailed (requestID s3Key s3URL errMsg : String)
  | generationFailed (requestID errMsg : String)
deriving DecidableEq, Repr

/-- The body of the `for msg := range pubsub.Channel()` loop of
`StartCompletionListener`, for one message payload.  The database call
is the injected `db` function (in the repository it is
`updateGeneratedContentWithImage`). -/
def handleCompletionMessage (db : String → String → String → Option String)
    (payload : JValue) : List ListenerEvent :=
  match unmarshalCompletion payload with
  | none => [.parseFailed]
  | some completion =>
    .received completion.requestID completion.status ::
    (if completion.status = "completed" then
      match db completion.requestID completion.s3Key completion.s3URL with
      | some e =>
        [.dbUpdateFailed completion.requestID completion.s3Key
          completion.s3URL e]
      | none =>
        [.dbUpdated completion.requestID completion.s3Key completion.s3URL]
    else if completion.status = "failed" then
      [.generationFailed completion.requestID completion.err]
    else [])

/-- `StartCompletionListener` run over a (finite trace of the infinite)
stream of payloads delivered on `"image_generation_complete"`: the loop
body has no `break` or `return`, so every delivered message is
processed in order. -/
def startCompletionListener (db : String → String → String → Option String) :
    List JValue → List ListenerEvent
  | [] => []
  | payload :: rest =>
    handleCompletionMessage db payload ++ startCompletionListener db rest

/-- The database invocations recorded in a listener trace: the argument
triples `(request_id, s3_key, s3_url)` of each call to
`UpdateGeneratedContentWithImage`, whether it succeeded or failed. -/
def dbCallsOf : List ListenerEvent → List (String × String × String)
  | [] => []
  | .dbUpdated r k u :: rest => (r, k, u) :: dbCallsOf rest
  | .dbUpdateFailed r k u _ :: rest => (r, k, u) :: dbCallsOf rest
  | _ :: rest => dbCallsOf rest

/-! ### Helper lemmas about the decoder -/

/-- The tag `request_id` is already folded. -/
theorem foldKey_request_id : foldKey "request_id" = "request_id" := rfl

/-- The tag `user_id` is already folded. -/
theorem foldKey_user_id : foldKey "user_id" = "user_id" := rfl

/-- The tag `prompt` is already folded. -/
theorem foldKey_prompt : foldKey "prompt" = "prompt" := rfl

/-- An unknown key is ignored by one unmarshal step. -/
theorem setCompletionField_unknown (c : ImageGenerationCompletion)
    (k : String) (v : JValue) (h : knownCompletionKey k = false) :
    setCompletionField c k v = some c := by
  simp only [knownCompletionKey, Bool.or_eq_false_iff, decide_eq_false_iff_not] at h
  obtain ⟨⟨⟨⟨⟨⟨⟨h1, h2⟩, h3⟩, h4⟩, h5⟩, h6⟩, h7⟩, h8⟩ := h
  simp [setCompletionField, h1, h2, h3, h4, h5, h6, h7, h8]

/-- One unmarshal step fails exactly on a known key with a wrong-typed
(non-null) value. -/
theorem setCompletionField_none_iff (c : ImageGenerationCompletion)
    (k : String) (v : JValue) :
    setCompletionField c k v = none ↔ badCompletionField (k, v) = true := by
  simp only [setCompletionField, badCompletionField, knownCompletionKey]
  split_ifs <;> cases v <;> simp_all [storeStr, storeNum]

/-- Decoding a concatenation of member lists is sequential composition. -/
theorem decodeCompletionFields_append (l1 l2 : List (String × JValue))
    (c : ImageGenerationCompletion) :
    decodeCompletionFields c (l1 ++ l2) =
      (decodeCompletionFields c l1).bind (fun c2 => decodeCompletionFields c2 l2) := by
  induction l1 generalizing c with
  | nil => simp [decodeCompletionFields]
  | cons kv rest ih =>
    obtain ⟨k, v⟩ := kv
    simp only [List.cons_append, decodeCompletionFields]
    cases setCompletionField c k v with
    | none => simp
    | some c2 => simpa using ih c2

/-- Decoding a member list fails exactly when it contains a wrong-typed
known field. -/
theorem decodeCompletionFields_none_iff (fields : List (String × JValue))
    (c : ImageGenerationCompletion) :
    decodeCompletionFields c fields = none ↔ fields.any badCompletionField = true := by
  induction fields generalizing c with
  | nil => simp [decodeCompletionFields]
  | cons kv rest ih =>
    obtain ⟨k, v⟩ := kv
    simp only [decodeCompletionFields, List.any_cons, Bool.or_eq_true]
    cases h : setCompletionField c k v with
    | none =>
      have hbad := (setCompletionField_none_iff c k v).mp h
      simp [hbad]
    | some c2 =>
      have hok : ¬ badCompletionField (k, v) = true := by
        intro hb
        rw [← setCompletionField_none_iff c k v] at hb
        simp [h] at hb
      simp [hok, ih c2]

/-- A list made only of unknown keys decodes as a no-op. -/
theorem decodeCompletionFields_unknown (extra : List (String × JValue))
    (c : ImageGenerationCompletion)
    (h : ∀ kv ∈ extra, knownCompletionKey kv.1 = false) :
    decodeCompletionFields c extra = some c := by
  induction extra with
  | nil => rfl
  | cons kv rest ih =>
    obtain ⟨k, v⟩ := kv
    have hk : knownCompletionKey k = false := h (k, v) (List.mem_cons_self _ _)
    simp only [decodeCompletionFields, setCompletionField_unknown c k v hk]
    exact ih (fun kv2 hm => h kv2 (List.mem_cons_of_mem _ hm))

/-- The listener trace of concatenated message streams is the
concatenation of the traces. -/
theorem startCompletionListener_append
    (db : String → String → String → Option String) (l1 l2 : List JValue) :
    startCompletionListener db (l1 ++ l2) =
      startCompletionListener db l1 ++ startCompletionListener db l2 := by
  induction l1 with
  | nil => simp [startCompletionListener]
  | cons p rest ih => simp [startCompletionListener, ih]

/-! ### Concrete payloads used by witnesses and counterexamples -/

/-- Members of a well-formed completed-status payload. -/
def completedFields : List (String × JValue) :=
  [("request_id", .str "r1"), ("user_id", .str "u1"),
   ("status", .str "completed"), ("s3_key", .str "generated/u1/r1.png"),
   ("s3_url", .str "https://bucket/r1.png"), ("timestamp", .str "t1")]

/-- A well-formed completed-status payload. -/
def completedPayload : JValue := .obj completedFields

/-- The completion decoded from `completedPayload`. -/
def completedCompletion : ImageGenerationCompletion :=
  { requestID := "r1", userID := "u1", status := "completed",
    s3Key := "generated/u1/r1.png", s3URL := "https://bucket/r1.png",
    generationTimeSeconds := 0, err := "", timestamp := "t1" }

/-! ### The claims -/

/-- Claim C1: on the success path, `PublishImageGenerationRequest`
publishes, on the channel `"image_generation_requests"`, the JSON
object holding the fields `request_id`, `user_id` and `prompt`, where
`request_id` is the freshly generated identifier, and returns that same
identifier with a nil error; the result never depends on any generation
outcome, so the call does not wait for generation. -/
theorem publish_request_channel_payload_and_id
    (requestID userID prompt : String) :
    (publishImageGenerationRequest requestID userID prompt none).channel =
        "image_generation_requests" ∧
    (publishImageGenerationRequest requestID userID prompt none).payload =
        .obj [("request_id", .str requestID), ("user_id", .str userID),
              ("prompt", .str prompt)] ∧
    (publishImageGenerationRequest requestID userID prompt none).ret = requestID ∧
    (publishImageGenerationRequest requestID userID prompt none).returnedErr = none :=
  ⟨rfl, rfl, rfl, rfl⟩

/-- Claim C2, counterexample: a payload whose `request_id` is empty,
whose other required fields are missing and whose status lies outside
{completed, failed} decodes successfully, so decoding does not fail in
any of the three situations the claim lists (the code has no typed
MalformedMessageError at all). -/
theorem decode_accepts_empty_id_missing_fields_unknown_status :
    unmarshalCompletion (.obj [("request_id", .str ""), ("status", .str "weird")]) =
      some { requestID := "", userID := "", status := "weird", s3Key := "",
             s3URL := "", generationTimeSeconds := 0, err := "", timestamp := "" } :=
  rfl

/-- Claim C2, amended: decoding an object payload fails — with Go's
generic json unmarshal error, the only failure the code can produce —
exactly when some member with a known key holds a value of the wrong
JSON type; missing fields, an empty `request_id` and a status outside
{completed, failed} are all accepted. -/
theorem unmarshalCompletion_obj_fails_iff_wrong_typed_field
    (fields : List (String × JValue)) :
    unmarshalCompletion (.obj fields) = none ↔
      fields.any badCompletionField = true := by
  simp only [unmarshalCompletion]
  exact decodeCompletionFields_none_iff fields zeroCompletion

/-- Claim C3, counterexample: delivering the same completed message
twice makes the listener invoke the database update twice — the
second, redundant delivery is processed again, not silently ignored. -/
theorem duplicate_completion_updates_db_twice :
    dbCallsOf (startCompletionListener updateGeneratedContentWithImage
        [completedPayload, completedPayload]) =
      [("r1", "generated/u1/r1.png", "https://bucket/r1.png"),
       ("r1", "generated/u1/r1.png", "https://bucket/r1.png")] :=
  rfl

/-- Claim C3, amended: the listener keeps no record of handled request
ids; each delivered completion is handled purely as a function of its
own payload, so a redundant duplicate delivery is re-processed —
database update included — rather than ignored, and idempotency must
come from the update itself being keyed on `request_id`. -/
theorem listener_handles_each_delivery_independently
    (db : String → String → String → Option String)
    (msgs : List JValue) (payload : JValue) :
    startCompletionListener db (msgs ++ [payload]) =
      startCompletionListener db msgs ++ handleCompletionMessage db payload ∧
    startCompletionListener db [payload, payload] =
      handleCompletionMessage db payload ++ handleCompletionMessage db payload := by
  constructor
  · rw [startCompletionListener_append]
    simp [startCompletionListener]
  · simp [startCompletionListener]

/-- Claim C4: encoding a valid request (non-empty `request_id` and
non-empty `prompt`) and decoding the result yields the identical
request. -/
theorem encode_decode_request_roundtrip (r : ImageGenerationRequest)
    (hid : r.requestID ≠ "") (hprompt : r.prompt ≠ "") :
    unmarshalRequest (marshalRequest r) = some r := by
  cases r
  simp [unmarshalRequest, marshalRequest, decodeRequestFields, setRequestField,
    foldKey_request_id, foldKey_user_id, foldKey_prompt]

/-- Concrete witness of the encode–decode round trip. -/
theorem encode_decode_request_roundtrip_witness :
    unmarshalRequest (marshalRequest ⟨"r1", "u1", "dragon"⟩) =
      some ⟨"r1", "u1", "dragon"⟩ :=
  encode_decode_request_roundtrip ⟨"r1", "u1", "dragon"⟩ (by decide) (by decide)

/-- Claim C5: for a decoded completion, status `"completed"` triggers
exactly one database update call, carrying that completion's
`request_id`, `s3_key` and `s3_url`, and status `"failed"` triggers no
database update at all. -/
theorem completed_updates_db_once_failed_none
    (db : String → String → String → Option String)
    (payload : JValue) (c : ImageGenerationCompletion)
    (hdec : unmarshalCompletion payload = some c) :
    (c.status = "completed" →
      dbCallsOf (handleCompletionMessage db payload) =
        [(c.requestID, c.s3Key, c.s3URL)]) ∧
    (c.status = "failed" →
      dbCallsOf (handleCompletionMessage db payload) = []) := by
  constructor
  · intro h
    cases hdb : db c.requestID c.s3Key c.s3URL <;>
      simp [handleCompletionMessage, hdec, h, hdb, dbCallsOf]
  · intro h
    simp [handleCompletionMessage, hdec, h, dbCallsOf]

/-- Concrete witness: the completed payload triggers exactly one
database call with its own identifiers. -/
theorem completed_updates_db_once_witness :
    dbCallsOf (handleCompletionMessage updateGeneratedContentWithImage
        completedPayload) =
      [("r1", "generated/u1/r1.png", "https://bucket/r1.png")] :=
  (completed_updates_db_once_failed_none updateGeneratedContentWithImage
    completedPayload completedCompletion rfl).1 rfl

/-- Claim C6: a payload that fails to decode is logged as a parse
failure and dropped, and the listener goes on to process the rest of
the stream unchanged — one malformed message never ends the loop. -/
theorem malformed_payload_dropped_loop_continues
    (db : String → String → String → Option String)
    (payload : JValue) (rest : List JValue)
    (h : unmarshalCompletion payload = none) :
    startCompletionListener db (payload :: rest) =
      ListenerEvent.parseFailed :: startCompletionListener db rest := by
  simp [startCompletionListener, handleCompletionMessage, h]

/-- Concrete witness: a payload whose `request_id` is a number fails to
decode and is dropped, and the following well-formed message is still
processed. -/
theorem malformed_payload_dropped_witness :
    startCompletionListener updateGeneratedContentWithImage
        [.obj [("request_id", .num 3)], completedPayload] =
      ListenerEvent.parseFailed ::
        startCompletionListener updateGeneratedContentWithImage
          [completedPayload] :=
  malformed_payload_dropped_loop_continues updateGeneratedContentWithImage
    (.obj [("request_id", .num 3)]) [completedPayload] rfl

/-- Claim C7: appending members with unknown keys to a successfully
decoding object payload does not change the decoded completion. -/
theorem unknown_fields_ignored
    (fields extra : List (String × JValue)) (c : ImageGenerationCompletion)
    (hextra : ∀ kv ∈ extra, knownCompletionKey kv.1 = false)
    (hdec : unmarshalCompletion (.obj fields) = some c) :
    unmarshalCompletion (.obj (fields ++ extra)) = some c := by
  simp only [unmarshalCompletion] at hdec ⊢
  rw [decodeCompletionFields_append, hdec]
  exact decodeCompletionFields_unknown extra c hextra

/-- Concrete witness: two extra unknown members leave the decoded
completion unchanged. -/
theorem unknown_fields_ignored_witness :
    unmarshalCompletion
        (.obj (completedFields ++ [("extra", .num 7), ("another", .bool true)])) =
      some completedCompletion :=
  unknown_fields_ignored completedFields
    [("extra", .num 7), ("another", .bool true)] completedCompletion
    (by decide) rfl

/-- Claim C8: the error returned by `PublishImageGenerationRequest` is
exactly the error of the bus publish call (JSON marshalling of the
three-string struct cannot fail, so no other error source exists); on
failure the returned identifier is the empty string, and on success the
error is nil and the fresh identifier is returned. -/
theorem publish_request_err_iff_publish_fails
    (requestID userID prompt : String) (publishErr : Option String) :
    (publishImageGenerationRequest requestID userID prompt publishErr).returnedErr =
        publishErr ∧
    (publishImageGenerationRequest requestID userID prompt publishErr).ret =
        (if publishErr.isNone then requestID else "") := by
  cases publishErr <;> simp [publishImageGenerationRequest]

/-- Claim C9: a decoded completion whose status is neither
`"completed"` nor `"failed"` produces only the receipt log line — no
database call and no failure handling — and the loop silently moves on
to the next message. -/
theorem unknown_status_no_action
    (db : String → String → String → Option String)
    (payload : JValue) (rest : List JValue) (c : ImageGenerationCompletion)
    (hdec : unmarshalCompletion payload = some c)
    (hnc : c.status ≠ "completed") (hnf : c.status ≠ "failed") :
    handleCompletionMessage db payload =
      [ListenerEvent.received c.requestID c.status] ∧
    dbCallsOf (handleCompletionMessage db payload) = [] ∧
    startCompletionListener db (payload :: rest) =
      ListenerEvent.received c.requestID c.status ::
        startCompletionListener db rest := by
  have hmsg : handleCompletionMessage db payload =
      [ListenerEvent.received c.requestID c.status] := by
    simp [handleCompletionMessage, hdec, hnc, hnf]
  exact ⟨hmsg, by simp [hmsg, dbCallsOf],
    by simp [startCompletionListener, hmsg]⟩

/-- Concrete witness: a completion with status `"pending"` yields no
database call. -/
theorem unknown_status_no_action_witness :
    dbCallsOf (handleCompletionMessage updateGeneratedContentWithImage
        (.obj [("request_id", .str "r9"), ("status", .str "pending")])) = [] :=
  (unknown_status_no_action updateGeneratedContentWithImage
    (.obj [("request_id", .str "r9"), ("status", .str "pending")]) []
    { requestID := "r9", userID := "", status := "pending", s3Key := "",
      s3URL := "", generationTimeSeconds := 0, err := "", timestamp := "" }
    rfl (by decide) (by decide)).2.1

/-- Claim C10: when the database update for a completed completion
returns an error, the listener logs the failure, makes no further
attempt (the update is invoked exactly once for the message), and the
loop continues with the remaining messages. -/
theorem db_failure_logged_no_retry_loop_continues
    (db : String → String → String → Option String)
    (payload : JValue) (rest : List JValue) (c : ImageGenerationCompletion)
    (e : String)
    (hdec : unmarshalCompletion payload = some c)
    (hst : c.status = "completed")
    (hdb : db c.requestID c.s3Key c.s3URL = some e) :
    handleCompletionMessage db payload =
      [ListenerEvent.received c.requestID c.status,
       ListenerEvent.dbUpdateFailed c.requestID c.s3Key c.s3URL e] ∧
    dbCallsOf (handleCompletionMessage db payload) =
      [(c.requestID, c.s3Key, c.s3URL)] ∧
    startCompletionListener db (payload :: rest) =
      handleCompletionMessage db payload ++ startCompletionListener db rest := by
  have hmsg : handleCompletionMessage db payload =
      [ListenerEvent.received c.requestID c.status,
       ListenerEvent.dbUpdateFailed c.requestID c.s3Key c.s3URL e] := by
    simp [handleCompletionMessage, hdec, hst, hdb]
  exact ⟨hmsg, by simp [hmsg, dbCallsOf], by simp [startCompletionListener]⟩

/-- Concrete witness: with a database stub that fails, the completed
payload is consumed with exactly one (failed) update invocation. -/
theorem db_failure_logged_no_retry_witness :
    dbCallsOf (handleCompletionMessage (fun _ _ _ => some "boom")
        completedPayload) =
      [("r1", "generated/u1/r1.png", "https://bucket/r1.png")] :=
  (db_failure_logged_no_retry_loop_continues (fun _ _ _ => some "boom")
    completedPayload [] completedCompletion "boom" rfl rfl rfl).2.1
